import Mathlib

/-!
Verification of the camera / robot utility scripts of this repository.

The development shallowly embeds the pure decision logic of the Python
sources:

* `camera-diagnostics.py` : per-channel statistics (`stats_rgb`), the
  verdict classifier (`verdict_from_stats`), the channel-order correction
  (`to_bgr`) and the capture / sweep control flow of `main`.
* `treasure_hunt.py` : the keyboard thread write and the lock-guarded
  key-consumption block of the control loop.
* `display-cam/app.py` : which HTTP routes get registered and what each
  one serves.
* `tools.py` : the `search_arxiv` function.

Machine reals (numpy `float32`) are modelled by exact rationals `ℚ`; byte
pixel values by `ℕ`.
-/

namespace CameraDiag

/-- One row of the `reshape(-1, 3)` view of an `HxWx3` RGB `uint8` image:
a single pixel with its red, green and blue byte values. -/
structure RGBPixel where
  r : ℕ
  g : ℕ
  b : ℕ
deriving DecidableEq, Repr

/-- Index of the first maximum of the three means, as `np.argmax` computes
it on the length-3 means array (`0 = R, 1 = G, 2 = B`, ties resolved to the
smallest index). -/
def argmax3 (r g b : ℚ) : ℕ :=
  if g > r then (if b > g then 2 else 1) else (if b > r then 2 else 0)

/-- The result dictionary of `stats_rgb`.  Only the fields that any code in
the repository reads downstream are modelled: `verdict_from_stats` reads
`means_rgb` only, and `dominant` is printed into the summary.  The
`stds_rgb` and `ratios_to_mean` entries are written to the report but never
read by any branch or claim, so they are not carried here. -/
structure RGBStats where
  means_rgb : ℚ × ℚ × ℚ
  dominant : String
deriving DecidableEq, Repr

/-- Embedding of `stats_rgb` from `camera-diagnostics.py`: flatten the image
to pixels, take the per-channel mean (`arr.mean(axis=0)`), and name the
dominant channel by the first argmax of the means. -/
def stats_rgb (img : List RGBPixel) : RGBStats :=
  { means_rgb :=
      (((img.map fun p => (p.r : ℚ)).sum) / img.length,
       ((img.map fun p => (p.g : ℚ)).sum) / img.length,
       ((img.map fun p => (p.b : ℚ)).sum) / img.length),
    dominant :=
      ["R", "G", "B"].getD
        (argmax3 (((img.map fun p => (p.r : ℚ)).sum) / img.length)
                 (((img.map fun p => (p.g : ℚ)).sum) / img.length)
                 (((img.map fun p => (p.b : ℚ)).sum) / img.length)) "R" }

/-- The blue-dominant verdict string of `verdict_from_stats`. -/
def blue_msg : String := "Blue much higher than R/G → AWB or gains issue likely."

/-- The red-dominant verdict string of `verdict_from_stats`. -/
def red_msg : String := "Red much higher than G/B → Scene warm or gains skewed."

/-- The balanced verdict string of `verdict_from_stats`. -/
def balanced_msg : String := "Channel means look balanced for typical indoor light."

/-- The `msgs` list that `verdict_from_stats` accumulates: the blue message
when `b > 1.4 * max(r, g)`, then the red message when `r > 1.4 * max(g, b)`
(the Python literal `1.4` is modelled as the exact rational `7/5`). -/
def verdict_msgs (r g b : ℚ) : List String :=
  (if b > 7/5 * max r g then [blue_msg] else []) ++
  (if r > 7/5 * max g b then [red_msg] else [])

/-- Embedding of `verdict_from_stats`: unpack `r, g, b` from `means_rgb`,
collect the dominance messages, fall back to the balanced message when no
dominance fired, and join with a single space. -/
def verdict_from_stats (s : RGBStats) : String :=
  String.intercalate " "
    (if verdict_msgs s.means_rgb.1 s.means_rgb.2.1 s.means_rgb.2.2 = [] then
       [balanced_msg]
     else
       verdict_msgs s.means_rgb.1 s.means_rgb.2.1 s.means_rgb.2.2)

/-- Embedding of `to_bgr`, which is `img[..., ::-1]` on an `HxWx3` array:
the image is a list of rows, each row a list of pixels, each pixel its list
of channel values; the slice `::-1` on the last axis reverses every
channel list. -/
def to_bgr (img : List (List (List ℕ))) : List (List (List ℕ)) :=
  img.map fun row => row.map List.reverse

/-- Modelled from the words of the spec, for comparison with `to_bgr`
(claim C5): the fixed permutation that swaps channel 0 and channel 2 of a
three-channel pixel and leaves channel 1 unchanged. -/
def swap_ch0_ch2 (px : List ℕ) : List ℕ :=
  match px with
  | [c0, c1, c2] => [c2, c1, c0]
  | other => other

lemma intercalate_one (m : String) : String.intercalate " " [m] = m := rfl

lemma means_nonneg (img : List RGBPixel) :
    0 ≤ (stats_rgb img).means_rgb.1 ∧ 0 ≤ (stats_rgb img).means_rgb.2.1 ∧
      0 ≤ (stats_rgb img).means_rgb.2.2 := by
  refine ⟨?_, ?_, ?_⟩ <;>
    exact div_nonneg
      (List.sum_nonneg (by intro x hx; simp at hx; obtain ⟨p, _, rfl⟩ := hx; positivity))
      (Nat.cast_nonneg _)

lemma not_red_of_blue {r g b : ℚ} (hb : 0 ≤ b) (h1 : 7/5 * max r g < b) :
    ¬ 7/5 * max g b < r := by
  intro h2
  have hr5 : 7/5 * r ≤ 7/5 * max r g := by
    have := le_max_left r g; linarith
  have hb5 : 7/5 * b ≤ 7/5 * max g b := by
    have := le_max_right g b; linarith
  linarith

/-- C1: for every image whose blue-channel mean exceeds `1.4` times the
maximum of the red and green means, the verdict classifier
(`verdict_from_stats` applied to `stats_rgb` of the image) returns the
blue-dominant message. -/
theorem blue_dominant_verdict (img : List RGBPixel)
    (h : 7/5 * max (stats_rgb img).means_rgb.1 (stats_rgb img).means_rgb.2.1 <
           (stats_rgb img).means_rgb.2.2) :
    verdict_from_stats (stats_rgb img) = blue_msg := by
  obtain ⟨hr, hg, hb⟩ := means_nonneg img
  have h2 := not_red_of_blue hb h
  unfold verdict_from_stats verdict_msgs
  rw [if_pos h, if_neg h2]
  simp [intercalate_one, blue_msg]

/-- Witness for C1 at the concrete single-pixel image `[(0, 0, 10)]`. -/
theorem blue_dominant_verdict_witness :
    7/5 * max (stats_rgb [⟨0, 0, 10⟩]).means_rgb.1
        (stats_rgb [⟨0, 0, 10⟩]).means_rgb.2.1 <
      (stats_rgb [⟨0, 0, 10⟩]).means_rgb.2.2 ∧
    verdict_from_stats (stats_rgb [⟨0, 0, 10⟩]) = blue_msg :=
  ⟨by norm_num [stats_rgb],
   blue_dominant_verdict [⟨0, 0, 10⟩] (by norm_num [stats_rgb])⟩

/-- C2: for every uniform gray image (all pixels equal, with equal red,
green and blue values), the verdict classifier returns the balanced
message. -/
theorem uniform_gray_verdict (img : List RGBPixel) (v : ℕ)
    (huni : ∀ p ∈ img, p = ⟨v, v, v⟩) :
    verdict_from_stats (stats_rgb img) = balanced_msg := by
  by_cases hne : img = []
  · subst hne
    unfold verdict_from_stats verdict_msgs stats_rgb
    norm_num [intercalate_one]
  have hpos : 0 < img.length := List.length_pos.mpr hne
  have hlen : (img.length : ℚ) ≠ 0 := Nat.cast_ne_zero.mpr hpos.ne'
  have hmean : ∀ f : RGBPixel → ℕ, f ⟨v, v, v⟩ = v →
      ((img.map fun p => (f p : ℚ)).sum) / img.length = (v : ℚ) := by
    intro f hf
    have hrep : img.map (fun p => (f p : ℚ)) = List.replicate img.length (v : ℚ) := by
      refine List.eq_replicate_iff.mpr ⟨by simp, ?_⟩
      intro x hx
      simp at hx
      obtain ⟨p, hp, rfl⟩ := hx
      rw [huni p hp, hf]
    rw [hrep, List.sum_replicate, nsmul_eq_mul, mul_comm, mul_div_assoc,
      div_self hlen, mul_one]
  have hv0 : (0 : ℚ) ≤ (v : ℚ) := Nat.cast_nonneg v
  have hcond : ¬ (7/5 * max (v : ℚ) (v : ℚ) < (v : ℚ)) := by
    rw [max_self]; intro hlt; linarith
  have hms : (stats_rgb img).means_rgb = ((v : ℚ), (v : ℚ), (v : ℚ)) := by
    simp only [stats_rgb]
    rw [hmean (fun p => p.r) rfl, hmean (fun p => p.g) rfl,
      hmean (fun p => p.b) rfl]
  unfold verdict_from_stats verdict_msgs
  rw [hms]
  rw [if_neg hcond, if_neg hcond]
  simp [intercalate_one]

/-- Witness for C2 at the concrete two-pixel gray image with value `3`. -/
theorem uniform_gray_verdict_witness :
    (∀ p ∈ ([⟨3, 3, 3⟩, ⟨3, 3, 3⟩] : List RGBPixel), p = ⟨3, 3, 3⟩) ∧
    verdict_from_stats (stats_rgb [⟨3, 3, 3⟩, ⟨3, 3, 3⟩]) = balanced_msg :=
  ⟨by decide,
   uniform_gray_verdict [⟨3, 3, 3⟩, ⟨3, 3, 3⟩] 3 (by decide)⟩

/-- C3: on non-negative channel means the verdict is exactly one of the
three canned messages, never a concatenation, because the blue-dominance
and red-dominance conditions are mutually exclusive. -/
theorem verdict_one_of_three (s : RGBStats)
    (hr : 0 ≤ s.means_rgb.1) (hg : 0 ≤ s.means_rgb.2.1)
    (hb : 0 ≤ s.means_rgb.2.2) :
    (verdict_from_stats s = blue_msg ∨ verdict_from_stats s = red_msg ∨
       verdict_from_stats s = balanced_msg) ∧
    ¬ (7/5 * max s.means_rgb.1 s.means_rgb.2.1 < s.means_rgb.2.2 ∧
       7/5 * max s.means_rgb.2.1 s.means_rgb.2.2 < s.means_rgb.1) := by
  constructor
  · by_cases h1 : 7/5 * max s.means_rgb.1 s.means_rgb.2.1 < s.means_rgb.2.2
    · left
      have h2 := not_red_of_blue hb h1
      unfold verdict_from_stats verdict_msgs
      rw [if_pos h1, if_neg h2]
      simp [intercalate_one, blue_msg]
    · by_cases h2 : 7/5 * max s.means_rgb.2.1 s.means_rgb.2.2 < s.means_rgb.1
      · right; left
        unfold verdict_from_stats verdict_msgs
        rw [if_neg h1, if_pos h2]
        simp [intercalate_one, red_msg]
      · right; right
        unfold verdict_from_stats verdict_msgs
        rw [if_neg h1, if_neg h2]
        simp [intercalate_one]
  · rintro ⟨h1, h2⟩
    exact not_red_of_blue hb h1 h2

/-- Witness for C3 at the concrete stats with means `(1, 1, 1)`. -/
theorem verdict_one_of_three_witness :
    (0 : ℚ) ≤ (RGBStats.mk (1, 1, 1) "R").means_rgb.1 ∧
    ((verdict_from_stats (RGBStats.mk (1, 1, 1) "R") = blue_msg ∨
        verdict_from_stats (RGBStats.mk (1, 1, 1) "R") = red_msg ∨
        verdict_from_stats (RGBStats.mk (1, 1, 1) "R") = balanced_msg) ∧
      ¬ (7/5 * max (RGBStats.mk (1, 1, 1) "R").means_rgb.1
             (RGBStats.mk (1, 1, 1) "R").means_rgb.2.1 <
           (RGBStats.mk (1, 1, 1) "R").means_rgb.2.2 ∧
         7/5 * max (RGBStats.mk (1, 1, 1) "R").means_rgb.2.1
             (RGBStats.mk (1, 1, 1) "R").means_rgb.2.2 <
           (RGBStats.mk (1, 1, 1) "R").means_rgb.1)) :=
  ⟨by norm_num,
   verdict_one_of_three (RGBStats.mk (1, 1, 1) "R") (by norm_num) (by norm_num)
     (by norm_num)⟩

/-- C4: the channel-order correction `to_bgr` is its own inverse: applying
it twice returns the original array (for every image, three-channel ones
included). -/
theorem to_bgr_involutive (img : List (List (List ℕ))) :
    to_bgr (to_bgr img) = img := by
  simp [to_bgr, List.map_map, Function.comp_def, List.reverse_reverse]

/-- C5: on every three-channel image, `to_bgr` is exactly the fixed
permutation that swaps channel 0 and channel 2 at every pixel and leaves
channel 1 unchanged. -/
theorem to_bgr_is_swap_ch0_ch2 (img : List (List (List ℕ)))
    (h3 : ∀ row ∈ img, ∀ px ∈ row, px.length = 3) :
    to_bgr img = img.map fun row => row.map swap_ch0_ch2 := by
  unfold to_bgr
  refine List.map_congr_left ?_
  intro row hrow
  refine List.map_congr_left ?_
  intro px hpx
  have hlen := h3 row hrow px hpx
  match px, hlen with
  | [a, b, c], _ => rfl

/-- Witness for C5 at a concrete one-row, two-pixel, three-channel image. -/
theorem to_bgr_is_swap_ch0_ch2_witness :
    (∀ row ∈ [[[1, 2, 3], [4, 5, 6]]], ∀ px ∈ row, List.length px = 3) ∧
    to_bgr [[[1, 2, 3], [4, 5, 6]]] =
      List.map (fun row => row.map swap_ch0_ch2) [[[1, 2, 3], [4, 5, 6]]] :=
  ⟨by decide, to_bgr_is_swap_ch0_ch2 [[[1, 2, 3], [4, 5, 6]]] (by decide)⟩

/-- Outcome of a run of `main` in `camera-diagnostics.py`, as far as
capture failures are observable: whether the `[error]` line was printed
before `sys.exit(1)`, how many `[warn]` lines the sweep printed, how many
sweep frames were processed, and the process exit code (`some 1` models
`sys.exit(1)`, `none` a run that reaches the end of the script). -/
structure DiagRun where
  errorPrinted : Bool
  warnCount : ℕ
  sweepProcessed : ℕ
  exitCode : Option ℕ
deriving DecidableEq, Repr

/-- The `for g in gains_list` sweep loop of `main`: a capture that returns
`None` prints a warning and `continue`s; any other capture is processed
(stats, verdict, saved file).  Returns (warnings printed, frames
processed). -/
def sweep_run : List (Option (List RGBPixel)) → ℕ × ℕ
  | [] => (0, 0)
  | none :: rest => ((sweep_run rest).1 + 1, (sweep_run rest).2)
  | some _ :: rest => ((sweep_run rest).1, (sweep_run rest).2 + 1)

/-- Control flow of `main` in `camera-diagnostics.py` around capture
results: `auto` is what the AUTO-WB capture returned, `sweepOn` the
`--sweep` flag, `usePicam2` whether the PiCamera2 backend loaded, and
`sweepFrames` what each sweep capture would return.  A `None` AUTO capture
prints `[error] Failed to capture an image.` and exits with status 1; the
sweep runs only when `sweepOn` and `usePicam2` both hold, and a `None`
capture there only warns and skips that gains setting. -/
def diag_main (auto : Option (List RGBPixel)) (sweepOn usePicam2 : Bool)
    (sweepFrames : List (Option (List RGBPixel))) : DiagRun :=
  match auto with
  | none =>
    { errorPrinted := true, warnCount := 0, sweepProcessed := 0,
      exitCode := some 1 }
  | some _ =>
    if sweepOn && usePicam2 then
      { errorPrinted := false, warnCount := (sweep_run sweepFrames).1,
        sweepProcessed := (sweep_run sweepFrames).2, exitCode := none }
    else
      { errorPrinted := false, warnCount := 0, sweepProcessed := 0,
        exitCode := none }

/-- A capture attempted during the run returned nothing: either the AUTO
capture did, or the sweep ran and some sweep capture did. -/
def capture_failed (auto : Option (List RGBPixel)) (sweepOn usePicam2 : Bool)
    (sweepFrames : List (Option (List RGBPixel))) : Prop :=
  auto = none ∨ (sweepOn = true ∧ usePicam2 = true ∧ none ∈ sweepFrames)

/-- The OpenCV startup check of `run_opencv` in `rami-first.py`: when the
capture device cannot be opened the script prints a message and calls
`sys.exit(1)`; otherwise it enters its display loop (exit code still
open, modelled `none`). -/
def run_opencv_exit (isOpened : Bool) : Option ℕ :=
  if isOpened then none else some 1

/-- C8 counterexample: a run with a successful AUTO capture and one failed
sweep capture.  A capture returned nothing, yet the program does not
terminate with a non-zero status: it prints a warning, skips that frame
and runs to completion. -/
theorem capture_none_not_always_fatal :
    capture_failed (some [⟨1, 1, 1⟩]) true true [none] ∧
    (diag_main (some [⟨1, 1, 1⟩]) true true [none]).exitCode = none ∧
    (diag_main (some [⟨1, 1, 1⟩]) true true [none]).warnCount = 1 :=
  ⟨Or.inr ⟨rfl, rfl, by decide⟩, by decide, by decide⟩

lemma sweep_run_counts (frames : List (Option (List RGBPixel))) :
    sweep_run frames =
      ((frames.filter Option.isNone).length,
       (frames.filter Option.isSome).length) := by
  induction frames with
  | nil => rfl
  | cons f rest ih =>
    match f with
    | none => simp [sweep_run, ih, List.filter]
    | some img => simp [sweep_run, ih, List.filter]

/-- C8 amended: a failed AUTO-WB capture (which is also how an unopenable
camera surfaces, since `capture_opencv` then returns `None`) prints the
error line and exits with status 1, and `run_opencv` in `rami-first.py`
exits with status 1 when the camera cannot be opened; but a capture that
returns nothing inside the gains sweep only prints a warning and skips
that gains setting, and the run completes, processing exactly the
non-`None` frames. -/
theorem capture_failure_handling (sweepOn usePicam2 : Bool)
    (img : List RGBPixel) (frames : List (Option (List RGBPixel))) :
    (diag_main none sweepOn usePicam2 frames).exitCode = some 1 ∧
    (diag_main none sweepOn usePicam2 frames).errorPrinted = true ∧
    run_opencv_exit false = some 1 ∧
    (diag_main (some img) true true frames).exitCode = none ∧
    (diag_main (some img) true true frames).warnCount =
      (frames.filter Option.isNone).length ∧
    (diag_main (some img) true true frames).sweepProcessed =
      (frames.filter Option.isSome).length := by
  refine ⟨rfl, rfl, rfl, rfl, ?_, ?_⟩ <;>
    simp [diag_main, sweep_run_counts]

end CameraDiag

namespace TreasureHunt

/-- Python string membership `needle in hay`: true iff `needle` occurs as
a contiguous substring of `hay` (the empty string always does).  This is
the semantics of `key in ('wsad')` in `treasure_hunt.py`, where the
parentheses do not make a tuple. -/
def py_in_str (needle hay : String) : Bool :=
  (List.range (hay.data.length + 1)).any fun i =>
    ((hay.data.drop i).take needle.data.length) = needle.data

/-- Python `str.lower()` as `key_scan_thread` applies it to the raw
`readchar.readkey()` result (ASCII key presses, covered by
`Char.toLower`). -/
def py_lower (s : String) : String := ⟨s.data.map Char.toLower⟩

/-- The `key_dict` dictionary of `treasure_hunt.py` as a lookup function;
`none` models a missing dictionary key, on which the subscript
`key_dict[str(key)]` raises `KeyError`. -/
def key_dict (k : String) : Option String :=
  if k = "w" then some "forward"
  else if k = "s" then some "backward"
  else if k = "a" then some "turn_left"
  else if k = "d" then some "turn_right"
  else none

/-- The value one pass of `key_scan_thread` stores into the shared `key`
variable for a raw `readchar.readkey()` result: lower-case it, then map
the space key to `"space"` and Ctrl-C (`"\x03"`) to `"quit"`.  The write
happens under `lock`. -/
def key_scan_write (key_temp : String) : String :=
  let k := py_lower key_temp
  if k = " " then "space" else if k = "\x03" then "quit" else k

/-- Observable outcome of one iteration of the `while True` body of `main`
in `treasure_hunt.py` (the lock-guarded key block plus the action
dispatch): the `tts.say` calls made, the `crawler.do_action` calls made,
the value of the shared `key` variable when the lock is released, whether
the loop breaks, and whether `key_dict[str(key)]` raised `KeyError`. -/
structure LoopIter where
  sayCalls : List String
  actions : List String
  keyAfter : Option String
  quits : Bool
  keyError : Bool
deriving DecidableEq, Repr

/-- One iteration of the key handling in `main`, reading the shared `key`
under the lock: `if key != None and key in ('wsad')` consume the key and
run its mapped action, `elif key == 'space'` say the target and consume
the key, `elif key == 'quit'` break, else leave the key in place and do
nothing. -/
def loop_iter (key : Option String) (color : String) : LoopIter :=
  match key with
  | none =>
    { sayCalls := [], actions := [], keyAfter := none, quits := false,
      keyError := false }
  | some k =>
    if py_in_str k "wsad" then
      match key_dict k with
      | some act =>
        { sayCalls := [], actions := [act], keyAfter := none, quits := false,
          keyError := false }
      | none =>
        { sayCalls := [], actions := [], keyAfter := some k, quits := false,
          keyError := true }
    else if k = "space" then
      { sayCalls := ["Look for " ++ color], actions := [], keyAfter := none,
        quits := false, keyError := false }
    else if k = "quit" then
      { sayCalls := [], actions := [], keyAfter := some k, quits := true,
        keyError := false }
    else
      { sayCalls := [], actions := [], keyAfter := some k, quits := false,
        keyError := false }

/-- C6: a key value the keyboard thread wrote that the main loop consumes
(it acts on it or says the target for it) is cleared to `None` inside the
same lock-guarded block, so the following iteration reads `None` and
performs no action: no key press is acted upon in more than one
iteration. -/
theorem consumed_key_cleared (key_temp color : String)
    (hcons : (loop_iter (some (key_scan_write key_temp)) color).actions ≠ [] ∨
             (loop_iter (some (key_scan_write key_temp)) color).sayCalls ≠ []) :
    (loop_iter (some (key_scan_write key_temp)) color).keyAfter = none ∧
    (loop_iter ((loop_iter (some (key_scan_write key_temp)) color).keyAfter)
        color).actions = [] := by
  set k := key_scan_write key_temp with hk
  have hclear : (loop_iter (some k) color).keyAfter = none := by
    unfold loop_iter at hcons ⊢
    rcases hkd : key_dict k with _ | act <;>
      simp only [hkd] at hcons ⊢ <;> split_ifs at hcons ⊢ <;> simp_all
  refine ⟨hclear, ?_⟩
  rw [hclear]
  rfl

/-- Witness for C6 at the raw key press `"W"` (written as `"w"`). -/
theorem consumed_key_cleared_witness :
    ((loop_iter (some (key_scan_write "W")) "red").actions ≠ [] ∨
       (loop_iter (some (key_scan_write "W")) "red").sayCalls ≠ []) ∧
    (loop_iter (some (key_scan_write "W")) "red").keyAfter = none ∧
    (loop_iter ((loop_iter (some (key_scan_write "W")) "red").keyAfter)
        "red").actions = [] :=
  ⟨by decide, consumed_key_cleared "W" "red" (by decide)⟩

lemma py_in_wsad_w : py_in_str "w" "wsad" = true := by decide

lemma py_in_wsad_s : py_in_str "s" "wsad" = true := by decide

lemma py_in_wsad_a : py_in_str "a" "wsad" = true := by decide

lemma py_in_wsad_d : py_in_str "d" "wsad" = true := by decide

/-- C7: each iteration of the control loop executes at most one robot
action, and the key-to-action mapping is fixed: `w` drives `forward`, `s`
`backward`, `a` `turn_left`, `d` `turn_right`, and any other key value
produces no robot action in that iteration. -/
theorem at_most_one_action_fixed_map (key : Option String) (k color : String)
    (hk : k ∉ (["w", "s", "a", "d"] : List String)) :
    (loop_iter key color).actions.length ≤ 1 ∧
    (loop_iter (some "w") color).actions = ["forward"] ∧
    (loop_iter (some "s") color).actions = ["backward"] ∧
    (loop_iter (some "a") color).actions = ["turn_left"] ∧
    (loop_iter (some "d") color).actions = ["turn_right"] ∧
    (loop_iter (some k) color).actions = [] := by
  refine ⟨?_, by simp [loop_iter, key_dict, py_in_wsad_w],
    by simp [loop_iter, key_dict, py_in_wsad_s],
    by simp [loop_iter, key_dict, py_in_wsad_a],
    by simp [loop_iter, key_dict, py_in_wsad_d], ?_⟩
  · cases key with
    | none => simp [loop_iter]
    | some k' =>
      unfold loop_iter
      rcases hkd : key_dict k' with _ | act <;>
        simp only [hkd] <;> split_ifs <;> simp
  · unfold loop_iter
    rcases hkd : key_dict k with _ | act
    · simp only [hkd]; split_ifs <;> simp
    · exfalso
      unfold key_dict at hkd
      split_ifs at hkd <;> simp_all

/-- Witness for C7 at the concrete non-mapped key `"x"`. -/
theorem at_most_one_action_fixed_map_witness :
    ("x" ∉ (["w", "s", "a", "d"] : List String)) ∧
    ((loop_iter (some "x") "red").actions.length ≤ 1 ∧
      (loop_iter (some "w") "red").actions = ["forward"] ∧
      (loop_iter (some "s") "red").actions = ["backward"] ∧
      (loop_iter (some "a") "red").actions = ["turn_left"] ∧
      (loop_iter (some "d") "red").actions = ["turn_right"] ∧
      (loop_iter (some "x") "red").actions = []) :=
  ⟨by decide, at_most_one_action_fixed_map (some "x") "x" "red" (by decide)⟩

end TreasureHunt

namespace DisplayCam

/-- What each handler of `display-cam/app.py` serves. -/
inductive ViewerResponse where
  | htmlPage
  | mjpegStream
  | snapshotJpeg
  | healthOk
  | staticLaraJpeg
deriving DecidableEq, Repr

/-- The routes `app.py` registers, as a function of whether the autofocus
setup block raised: the `@app.route("/lara")` registration (together with
the write of `static_lara.jpg`) is indented into the `except Exception:`
handler after its `pass`, so it executes only when the `libcamera` import
or the `set_controls` calls raised.  The other four routes are registered
at top level on every run. -/
def registered_routes (afSetupRaised : Bool) : List String :=
  (if afSetupRaised then ["/lara"] else []) ++
    ["/", "/stream", "/snapshot", "/healthz"]

/-- Dispatch of a GET request against the registered handlers of `app.py`;
`none` is the 404 the web framework answers for an unregistered path. -/
def viewer_get (afSetupRaised : Bool) (path : String) : Option ViewerResponse :=
  if path = "/lara" then
    (if afSetupRaised then some ViewerResponse.staticLaraJpeg else none)
  else if path = "/" then some ViewerResponse.htmlPage
  else if path = "/stream" then some ViewerResponse.mjpegStream
  else if path = "/snapshot" then some ViewerResponse.snapshotJpeg
  else if path = "/healthz" then some ViewerResponse.healthOk
  else none

/-- C9: evaluation at the failing run.  On a run where the autofocus setup
does not raise (a Camera Module 3 with `libcamera` present), `app.py`
never registers `/lara`, and a GET of `/lara` is a 404 instead of the
stored static JPEG; the route (and the static image write) exist only on
runs where the setup block raised, because the registration is indented
into the `except` handler. -/
theorem lara_route_only_after_af_exception :
    "/lara" ∉ registered_routes false ∧
    viewer_get false "/lara" = none ∧
    "/lara" ∈ registered_routes true ∧
    viewer_get true "/lara" = some ViewerResponse.staticLaraJpeg :=
  ⟨by decide, by decide, by decide, by decide⟩

end DisplayCam

namespace Tools

/-- One result object yielded by the arxiv client, with the fields
`search_arxiv` reads. -/
structure ArxivResult where
  title : String
  authors : List String
  summary : String
  published : String
  entry_id : String
deriving DecidableEq, Repr

/-- The per-result dictionary `search_arxiv` builds for one result. -/
structure Paper where
  title : String
  authors : List String
  summary : String
  published : String
  url : String
deriving DecidableEq, Repr

/-- The dictionary literal built in the body of the `for` loop of
`search_arxiv`. -/
def paper_of_result (r : ArxivResult) : Paper :=
  { title := r.title, authors := r.authors, summary := r.summary,
    published := r.published, url := r.entry_id }

/-- The `for result in results` loop of `search_arxiv`: each iteration
builds the `paper` dictionary and binds it to the local name `paper`, but
never appends it to `papers`, so the loop leaves `papers` as it was. -/
def search_arxiv_loop (papers : List Paper) :
    List ArxivResult → List Paper
  | [] => papers
  | r :: rest =>
    let _paper := paper_of_result r
    search_arxiv_loop papers rest

/-- Embedding of `search_arxiv` from `tools.py`: build the query string,
an empty `papers` list, and run the loop over at most `papers_count`
results (the `max_results` bound).  The body contains no `return`
statement, so the function falls through and Python returns `None`,
modelled as `none`; the computed query and loop result are discarded
exactly as the code discards them. -/
def search_arxiv (title : String) (papers_count : ℕ)
    (results : List ArxivResult) : Option (List Paper) :=
  let _search_query := "all:\x22" ++ title ++ "\x22"
  let papers : List Paper := []
  let _final_papers := search_arxiv_loop papers (results.take papers_count)
  none

/-- C10: for every title, requested paper count and result sequence,
`search_arxiv` returns `None` (and its `papers` list stays empty), so no
caller can obtain any search result from it. -/
theorem search_arxiv_returns_none (title : String) (papers_count : ℕ)
    (results : List ArxivResult) :
    search_arxiv title papers_count results = none ∧
    search_arxiv_loop [] (results.take papers_count) = [] := by
  constructor
  · rfl
  · generalize results.take papers_count = l
    induction l with
    | nil => rfl
    | cons r rest ih => simpa [search_arxiv_loop] using ih

end Tools
